import Mathlib

/-!
Verification of the Mock EDI 834 generator (stdlib-only variant).

Shallow embedding of `src/generators/mock_834_generator_nolibs.py` (the
single-file app `src/single_exe/mock_834_onefile_app.py` contains a
line-for-line copy of the same generation loop; the only behavioural
difference between the two files, the numeric-date branch of `yyyymmdd`,
is embedded as a second definition `yyyymmdd_onefile`).

Python strings are modelled as Lean `String`; `str.isdigit`/`str.upper`
are modelled on the ASCII fragment the workbook data lives in.  Fallible
code (functions whose Python counterpart can raise) returns
`Except String α`, carrying the exception message.
-/

/-- `ELEM_SEP` from the source: the element separator of a segment. -/
def ELEM_SEP : String := "*"

/-- `SEG_TERM` from the source: the segment terminator. -/
def SEG_TERM : String := "~"

/-- Trim of a character list on both sides, used to model Python `str.strip()`. -/
def stripChars (cs : List Char) : List Char :=
  ((cs.dropWhile Char.isWhitespace).reverse.dropWhile Char.isWhitespace).reverse

/-- Model of `_strip` from the source: `str(s).strip()` (with `None` mapped
to `""` at call sites through `Option.getD`). -/
def pyStrip (s : String) : String := String.mk (stripChars s.data)

/-- Model of Python `s.isdigit()` on ASCII data: non-empty and all digits. -/
def pyIsDigit (s : String) : Bool := !s.data.isEmpty && s.data.all Char.isDigit

/-- Model of Python `s.upper()` on ASCII data. -/
def pyUpper (s : String) : String := String.mk (s.data.map Char.toUpper)

/-- Model of Python `s.zfill(w)`: left-pad with zeros to width `w`,
keeping a leading sign in place. -/
def zfill (w : Nat) (s : String) : String :=
  match s.data with
  | c :: rest =>
      if c == '+' || c == '-' then
        String.mk (c :: (List.replicate (w - s.length) '0' ++ rest))
      else String.mk (List.replicate (w - s.length) '0' ++ s.data)
  | [] => String.mk (List.replicate w '0')

/-- Model of `s.ljust(15)[:15]` from the ISA segment construction. -/
def ljustTrunc15 (s : String) : String :=
  String.mk ((s.data ++ List.replicate (15 - s.length) ' ').take 15)

/-- Character list of `ELEM_SEP.join(elements)`: the element strings joined
by the separator character. -/
def joinChars : List String → List Char
  | [] => []
  | [e] => e.data
  | e :: f :: rest => e.data ++ '*' :: joinChars (f :: rest)

/-- Model of `seg(*elements)` from the source:
`ELEM_SEP.join(elements) + SEG_TERM`.  (Elements are always strings in the
embedding, so the `None`-to-`""` coalescing of the source is a no-op.) -/
def seg (elements : List String) : String := String.mk (joinChars elements ++ ['~'])

/-- Boolean prefix test on character lists. -/
def listStarts : List Char → List Char → Bool
  | [], _ => true
  | _ :: _, [] => false
  | a :: as, b :: bs => a == b && listStarts as bs

/-- Model of Python `s.startswith(p)`. -/
def strStarts (p s : String) : Bool := listStarts p.data s.data

/-- Value of a list of decimal digit characters, as in Python `int(...)`
on a digit string. -/
def digitsToNat (cs : List Char) : Nat :=
  cs.foldl (fun a c => a * 10 + (c.toNat - 48)) 0

/-- Model of the f-string `f"{n:02d}"` for a nonnegative `n`. -/
def pad2 (n : Nat) : String := if n < 10 then "0" ++ toString n else toString n

/-- Model of the regex match `^(\d{4})-(\d{2})-(\d{2})$` of `yyyymmdd`,
returning the three captured groups. -/
def isoMatch (s : String) : Option (String × String × String) :=
  match s.data with
  | [y1, y2, y3, y4, h1, m1, m2, h2, d1, d2] =>
      if y1.isDigit && y2.isDigit && y3.isDigit && y4.isDigit &&
         h1 == '-' && m1.isDigit && m2.isDigit && h2 == '-' &&
         d1.isDigit && d2.isDigit then
        some (String.mk [y1, y2, y3, y4], String.mk [m1, m2], String.mk [d1, d2])
      else none
  | _ => none

/-- Model of the regex match `^(\d{1,2})/(\d{1,2})/(\d{4})$` of `yyyymmdd`,
returning the three captured groups as digit lists. -/
def slashMatch (s : String) : Option (List Char × List Char × List Char) :=
  let p1 := s.data.span Char.isDigit
  match p1.2 with
  | '/' :: r2 =>
      let p2 := r2.span Char.isDigit
      (match p2.2 with
       | '/' :: r4 =>
           let p3 := r4.span Char.isDigit
           if 1 ≤ p1.1.length && p1.1.length ≤ 2 && 1 ≤ p2.1.length &&
              p2.1.length ≤ 2 && p3.1.length == 4 && p3.2.isEmpty then
             some (p1.1, p2.1, p3.1)
           else none
       | _ => none)
  | _ => none

/-- Model of the regex test `^\d+(\.\d+)?$` of `yyyymmdd`: one or more
digits optionally followed by a dot and one or more digits. -/
def isNumericStr (s : String) : Bool :=
  let p := s.data.span Char.isDigit
  !p.1.isEmpty &&
    (match p.2 with
     | [] => true
     | '.' :: r =>
         let q := r.span Char.isDigit
         !q.1.isEmpty && q.2.isEmpty
     | _ => false)

/-- Integer part of a numeric string accepted by `isNumericStr`: the value
of its leading digit run.  This is the day count that reaches `timedelta`
(the date part of `base + timedelta(days=float(s))` is `base` plus the
floor of the nonnegative day count). -/
def numFloorNat (s : String) : Nat := digitsToNat (s.data.takeWhile Char.isDigit)

/-- Proleptic Gregorian calendar date from a day count relative to
1970-01-01 (civil-from-days; all intermediate quantities are nonnegative
for the day counts reachable here). -/
def civilFromDays (z0 : Int) : Int × Int × Int :=
  let z := z0 + 719468
  let era := (if 0 ≤ z then z else z - 146096) / 146097
  let doe := z - era * 146097
  let yoe := (doe - doe / 1460 + doe / 36524 - doe / 146096) / 365
  let y := yoe + era * 400
  let doy := doe - (365 * yoe + yoe / 4 - yoe / 100)
  let mp := (5 * doy + 2) / 153
  let d := doy - (153 * mp + 2) / 5 + 1
  let m := mp + (if mp < 10 then 3 else (-9 : Int))
  (y + (if m ≤ 2 then 1 else 0), m, d)

/-- Rendering of `dt.strftime("%Y%m%d")` for a date in years 1000–9999. -/
def fmtYmd (ymd : Int × Int × Int) : String :=
  toString ymd.1 ++ pad2 ymd.2.1.toNat ++ pad2 ymd.2.2.toNat

/-- Calendar date, as `YYYYMMDD`, of `datetime(1899, 12, 30) + timedelta(days=n)`:
serial day `n` of the legacy spreadsheet epoch (1899-12-30 is 25569 days
before 1970-01-01). -/
def excelSerialToYmd (n : Nat) : String := fmtYmd (civilFromDays ((n : Int) - 25569))

/-- The `ValueError` message raised by `yyyymmdd` on unparseable input. -/
def badDateMsg (s : String) : String :=
  "Bad date \x27" ++ s ++ "\x27 (expected YYYYMMDD or YYYY-MM-DD)"

/-- Model of `yyyymmdd` from `mock_834_generator_nolibs.py`.

The numeric branch of the source (`re.match(r"^\d+(\.\d+)?$", s)`) computes
`base + timedelta(days=days)`, but this file imports only `datetime` from
the `datetime` module, so the expression raises `NameError: name
\x27timedelta\x27 is not defined`; the surrounding `except Exception: pass`
swallows it and control always falls through to the `MM/DD/YYYY` attempt.
The branch is therefore embedded as a no-op. -/
def yyyymmdd (val : String) : Except String String :=
  let s := pyStrip val
  if s == "" then .ok ""
  else if s.length == 8 && s.data.all Char.isDigit then .ok s
  else
    match isoMatch s with
    | some (y, mo, d) => .ok (y ++ mo ++ d)
    | none =>
        match slashMatch s with
        | some (mm, dd, yy) =>
            .ok (String.mk yy ++ pad2 (digitsToNat mm) ++ pad2 (digitsToNat dd))
        | none => .error (badDateMsg s)

/-- Model of `yyyymmdd` from `mock_834_onefile_app.py`, whose module header
does import `timedelta`: a purely numeric string is converted as a serial
day count from 1899-12-30.  Serial 2958465 is 9999-12-31 = `datetime.max`;
beyond it `base + timedelta(...)` raises `OverflowError`, which the
`except Exception: pass` swallows, falling through exactly as the nolibs
variant does. -/
def yyyymmdd_onefile (val : String) : Except String String :=
  let s := pyStrip val
  if s == "" then .ok ""
  else if s.length == 8 && s.data.all Char.isDigit then .ok s
  else
    match isoMatch s with
    | some (y, mo, d) => .ok (y ++ mo ++ d)
    | none =>
        if isNumericStr s && numFloorNat s ≤ 2958465 then
          .ok (excelSerialToYmd (numFloorNat s))
        else
          match slashMatch s with
          | some (mm, dd, yy) =>
              .ok (String.mk yy ++ pad2 (digitsToNat mm) ++ pad2 (digitsToNat dd))
          | none => .error (badDateMsg s)

/-!  Row model.  A projected sheet row is a Python dict from header label to
(already stripped) cell string; we model it as an association list in which
a later entry for the same key overwrites an earlier one, so lookups take
the last matching entry.  `rget` is the ubiquitous `_strip(row.get(k))`
(missing key → `None` → `""`); `sget` is `_strip(settings.get(k, dflt))`. -/

/-- A projected sheet row / the settings mapping. -/
def Row : Type := List (String × String)

/-- Python `row.get(k)`: last-write-wins dict lookup, `none` when absent. -/
def rgetRaw (row : Row) (k : String) : Option String :=
  ((List.filter (fun p => p.1 == k) row).getLast?).map (fun p => p.2)

/-- The source idiom `_strip(row.get(k))`. -/
def rget (row : Row) (k : String) : String := pyStrip ((rgetRaw row k).getD "")

/-- The source idiom `_strip(settings.get(k, dflt))`. -/
def sget (row : Row) (k dflt : String) : String := pyStrip ((rgetRaw row k).getD dflt)

/-- The `plan_map` construction and lookup: `plan_map[key] = r` for each plans
row whose stripped `Plan_Key` is non-empty, later rows overwriting earlier
ones; looking up a (non-empty) key therefore returns the last plans row
whose stripped `Plan_Key` equals it. -/
def planLookup (plans : List Row) (key : String) : Option Row :=
  (List.filter (fun r => rget r "Plan_Key" == key) plans).getLast?

/-- The `KeyError` message raised on an unresolved plan key. -/
def planErr (key : String) : String :=
  "Plan_Key \x27" ++ key ++ "\x27 not found in Plans sheet."

/-- The maintenance-type-code mapping
`{"ADD":"001","CHG":"002","TERM":"024"}.get(action, "001")` applied to
`_strip(row.get("Action") or "ADD").upper()` (Python `or`: a missing key or
an empty raw value falls back to `"ADD"`). -/
def actionCode (row : Row) : String :=
  let raw := (rgetRaw row "Action").getD ""
  let action := pyUpper (pyStrip (if raw == "" then "ADD" else raw))
  if action == "ADD" then "001"
  else if action == "CHG" then "002"
  else if action == "TERM" then "024"
  else "001"

/-- The relationship-code mapping `{"SPO":"01","CHD":"19"}.get(rel, "34")`. -/
def relCode (rel : String) : String :=
  if rel == "SPO" then "01" else if rel == "CHD" then "19" else "34"

/-- `_strip(pr.get("HD_Insurance_Line_Code")) or _strip(pr.get("Benefit_Type_Code"))`. -/
def hdLine (pr : Row) : String :=
  let l := rget pr "HD_Insurance_Line_Code"
  if l == "" then rget pr "Benefit_Type_Code" else l

/-- `_strip(pr.get("HD_Plan_Coverage_Desc")) or key`. -/
def hdDesc (pr : Row) (key : String) : String :=
  let d := rget pr "HD_Plan_Coverage_Desc"
  if d == "" then key else d

/-- The coverage block shared by the subscriber and dependent loop bodies
(`if plan_key: ...` / `if d_plan_key: ...` in the source): nothing for an
empty plan key; a `KeyError` for an unresolved one; otherwise the `HD`
segment (with the tier code for a subscriber, `""` for a dependent)
followed by the conditional benefit-begin/end `DTP` segments. -/
def hdSegs (plans : List Row) (plan_key tier cov_start cov_end : String) :
    Except String (List String) :=
  if plan_key == "" then .ok []
  else
    match planLookup plans plan_key with
    | none => .error (planErr plan_key)
    | some pr =>
        .ok ([seg ["HD", "030", "", hdLine pr, hdDesc pr plan_key, tier]]
          ++ (if cov_start == "" then [] else [seg ["DTP", "348", "D8", cov_start]])
          ++ (if cov_end == "" then [] else [seg ["DTP", "349", "D8", cov_end]]))

/-- Model of Python `x or y` on strings: the empty string is falsy. -/
def pyOr (x y : String) : String := if x == "" then y else x

/-- The segments a dependent row `d` always contributes (the `INS`/`NM1`
pair and the conditional `DMG`/`DTP` segments appended before the
dependent's coverage block), given the already-normalized dependent DOB
and the fallback-resolved coverage dates. -/
def depFront (sub_id : String) (d : Row) (d_dob d_start d_end : String) : List String :=
  [seg ["INS", "N", relCode (rget d "Relationship"), actionCode d, "XN", "A", "E"],
   if pyIsDigit (rget d "Dep_SSN") && (rget d "Dep_SSN").length == 9 then
     seg ["NM1", "IL", "1", rget d "Dep_Last", rget d "Dep_First",
          rget d "Dep_Middle", "", "", "34", rget d "Dep_SSN"]
   else
     seg ["NM1", "IL", "1", rget d "Dep_Last", rget d "Dep_First",
          rget d "Dep_Middle", "", "", "ZZ",
          if rget d "Dep_ID" == "" then sub_id ++ "-DEP"
          else sub_id ++ "-" ++ rget d "Dep_ID"]]
  ++ (if d_dob == "" && rget d "Dep_Gender" == "" then []
      else [seg ["DMG", "D8", d_dob, rget d "Dep_Gender"]])
  ++ (if d_start == "" then [] else [seg ["DTP", "356", "D8", d_start]])
  ++ (if d_end == "" then [] else [seg ["DTP", "357", "D8", d_end]])

/-- Segments contributed by one dependent row `d` of the subscriber loop
body (`for d in deps_by_sub.get(sub_id, [])`), given the owning
subscriber's identifier, normalized coverage dates and plan key.  Raising
(`yyyymmdd` on a bad date, `KeyError` on an unresolved plan key) is the
`Except.error` case. -/
def depSegs (plans : List Row) (sub_id cov_start cov_end plan_key : String)
    (d : Row) : Except String (List String) :=
  match yyyymmdd (rget d "Dep_DOB") with
  | .error e => .error e
  | .ok d_dob =>
  match yyyymmdd (rget d "Coverage_Start") with
  | .error e => .error e
  | .ok ds0 =>
  match yyyymmdd (rget d "Coverage_End") with
  | .error e => .error e
  | .ok de0 =>
  let d_start := pyOr ds0 cov_start
  let d_end := pyOr de0 cov_end
  let d_plan_key := pyOr (rget d "Plan_Key") plan_key
  match hdSegs plans d_plan_key "" d_start d_end with
  | .error e => .error e
  | .ok hd => .ok (depFront sub_id d d_dob d_start d_end ++ hd)

/-- The dependent loop of one subscriber, in input order. -/
def depLoop (plans : List Row) (sub_id cov_start cov_end plan_key : String) :
    List Row → Except String (List String)
  | [] => .ok []
  | d :: rest =>
      match depSegs plans sub_id cov_start cov_end plan_key d with
      | .error e => .error e
      | .ok l =>
          match depLoop plans sub_id cov_start cov_end plan_key rest with
          | .error e => .error e
          | .ok L => .ok (l ++ L)

/-- `deps_by_sub.get(sub_id, [])`: the dependents rows whose stripped
`Subscriber_ID` equals `sub_id`, in input order.  (The index construction
skips rows with an empty `Subscriber_ID`; for the non-empty `sub_id` of a
processed member the filter below skips them likewise.) -/
def depsFor (deps : List Row) (sub_id : String) : List Row :=
  List.filter (fun d => rget d "Subscriber_ID" == sub_id) deps

/-- The segments a members row `m` always contributes (the `INS`/`NM1`
pair and the conditional `N3`/`N4`/`DMG`/`DTP` segments appended before
the subscriber's coverage block), given the already-normalized DOB and
coverage dates. -/
def memberFront (sub_id : String) (m : Row) (dob cov_start cov_end : String) :
    List String :=
  [seg ["INS", "Y", "18", actionCode m, "XN", "A", "E", "", "",
        rget m "Employment_Status"],
   if pyIsDigit (rget m "Subscriber_SSN") && (rget m "Subscriber_SSN").length == 9 then
     seg ["NM1", "IL", "1", rget m "Sub_Last", rget m "Sub_First",
          rget m "Sub_Middle", "", "", "34", rget m "Subscriber_SSN"]
   else
     seg ["NM1", "IL", "1", rget m "Sub_Last", rget m "Sub_First",
          rget m "Sub_Middle", "", "", "ZZ", sub_id]]
  ++ (if rget m "Sub_Address1" == "" then []
      else [seg ["N3", rget m "Sub_Address1"]])
  ++ (if rget m "Sub_City" == "" && rget m "Sub_State" == "" &&
         rget m "Sub_Zip" == "" then []
      else [seg ["N4", rget m "Sub_City", rget m "Sub_State", rget m "Sub_Zip"]])
  ++ (if dob == "" && rget m "Sub_Gender" == "" then []
      else [seg ["DMG", "D8", dob, rget m "Sub_Gender"]])
  ++ (if cov_start == "" then [] else [seg ["DTP", "356", "D8", cov_start]])
  ++ (if cov_end == "" then [] else [seg ["DTP", "357", "D8", cov_end]])

/-- Segments contributed by one members row `m`: the body of
`for m in members` in `main`.  A member whose stripped `Subscriber_ID` is
empty is skipped (`continue`), contributing nothing. -/
def memberSegs (plans deps : List Row) (m : Row) : Except String (List String) :=
  let sub_id := rget m "Subscriber_ID"
  if sub_id == "" then .ok []
  else
  match yyyymmdd (rget m "Sub_DOB") with
  | .error e => .error e
  | .ok dob =>
  match yyyymmdd (rget m "Coverage_Start") with
  | .error e => .error e
  | .ok cov_start =>
  match yyyymmdd (rget m "Coverage_End") with
  | .error e => .error e
  | .ok cov_end =>
  match hdSegs plans (rget m "Plan_Key") (rget m "Coverage_Tier_Code")
      cov_start cov_end with
  | .error e => .error e
  | .ok hd =>
  match depLoop plans sub_id cov_start cov_end (rget m "Plan_Key")
      (depsFor deps sub_id) with
  | .error e => .error e
  | .ok dsegs => .ok (memberFront sub_id m dob cov_start cov_end ++ hd ++ dsegs)

/-- The subscriber loop `for m in members`, in input order. -/
def memberLoop (plans deps : List Row) : List Row → Except String (List String)
  | [] => .ok []
  | m :: rest =>
      match memberSegs plans deps m with
      | .error e => .error e
      | .ok l =>
          match memberLoop plans deps rest with
          | .error e => .error e
          | .ok L => .ok (l ++ L)

/-- Input of one generation run: the projected tables plus the strings the
source derives from `datetime.now()` (`%y%m%d`, `%H%M`, `%Y%m%d`, `%H%M`)
and the current date in ISO form used as the `As_Of_Date` default. -/
structure GenInput where
  settings : Row
  plans : List Row
  members : List Row
  deps : List Row
  isaDate : String
  isaTime : String
  gsDate : String
  gsTime : String
  nowDateIso : String

/-- `_strip(settings.get("Transaction_Control (ST02)", "1"))`. -/
def tcnOf (st : Row) : String :=
  sget st "Transaction_Control (ST02)" "1"

/-- `_strip(settings.get("Group_Control (GS06)", "1"))`. -/
def gcnOf (st : Row) : String :=
  sget st "Group_Control (GS06)" "1"

/-- `_strip(settings.get("Interchange_Control (ISA13)", "1")).zfill(9)`. -/
def icnOf (st : Row) : String :=
  zfill 9 (sget st "Interchange_Control (ISA13)" "1")

/-- The seven envelope segments appended before the subscriber loop. -/
def envSegs (st : Row) (isaDate isaTime gsDate gsTime as_of : String) : List String :=
  let sender := sget st "Sender_ID (ISA06)" "SENDERID"
  let receiver := sget st "Receiver_ID (ISA08)" "RECEIVERID"
  [seg ["ISA", "00", "          ", "00", "          ", "ZZ", ljustTrunc15 sender,
        "ZZ", ljustTrunc15 receiver, isaDate, isaTime, "^", "00501",
        icnOf st, "0", "P", ">"],
   seg ["GS", "BE", sender, receiver, gsDate, gsTime, gcnOf st, "X",
        "005010X220A1"],
   seg ["ST", "834", tcnOf st, "005010X220A1"],
   seg ["BGN", "00", tcnOf st, gsDate, gsTime, "", "",
        pyUpper (sget st "File_Type" "FULL")],
   seg ["DTP", "007", "D8", as_of],
   seg ["N1", "P5", sget st "Sponsor_Name (Employer)" "SPONSOR", "FI",
        sget st "Sponsor_ID (Employer ID)" "000000000"],
   seg ["N1", "IN", sget st "Payer_Name (Carrier)" "PAYER", "FI",
        sget st "Payer_ID (Carrier ID)" "999999"]]

/-- The core of `main` from `mock_834_generator_nolibs.py` (identically, of
`generate_834_from_xlsx` from the single-file app), from projected tables
to the final ordered segment list: envelope segments, the subscriber and
dependent loops, the `GE`/`IEA` trailers, then the `SE_PLACEHOLDER`
replacement computing the transaction segment count positionally
(`(se_index - st_index) + 1`). -/
def generate834 (inp : GenInput) : Except String (List String) :=
  match yyyymmdd (sget inp.settings "As_Of_Date" inp.nowDateIso) with
  | .error e => .error e
  | .ok as_of =>
  match memberLoop inp.plans inp.deps inp.members with
  | .error e => .error e
  | .ok body =>
      let edi := envSegs inp.settings inp.isaDate inp.isaTime inp.gsDate inp.gsTime
          as_of ++ body ++
        ["SE_PLACEHOLDER", seg ["GE", "1", gcnOf inp.settings],
         seg ["IEA", "1", icnOf inp.settings]]
      let st_index := List.findIdx (fun s => strStarts ("ST" ++ ELEM_SEP) s) edi
      let se_index := List.findIdx (fun s => s == "SE_PLACEHOLDER") edi
      .ok (edi.set se_index
        (seg ["SE", toString ((se_index - st_index) + 1), tcnOf inp.settings]))

/-!  Cell-grid extractor pieces (`read_xlsx_tables` / `parse_sheet`). -/

/-- Model of Python `int(raw)` restricted to the forms it accepts here:
surrounding whitespace stripped, an optional sign, then decimal digits. -/
def pyToInt (s : String) : Option Int :=
  let t := pyStrip s
  match t.data with
  | [] => none
  | c :: ds =>
      if c == '+' then
        if !ds.isEmpty && ds.all Char.isDigit then some ((digitsToNat ds : Nat) : Int)
        else none
      else if c == '-' then
        if !ds.isEmpty && ds.all Char.isDigit then some (-((digitsToNat ds : Nat) : Int))
        else none
      else
        if (c :: ds).all Char.isDigit then some ((digitsToNat (c :: ds) : Nat) : Int)
        else none

/-- Model of Python list subscription `l[i]` (negative indices count from
the end; an out-of-range index raises `IndexError`, here `none`). -/
def pyListGet (l : List String) (i : Int) : Option String :=
  if 0 ≤ i then l[i.toNat]?
  else if -(l.length : Int) ≤ i then l[((l.length : Int) + i).toNat]?
  else none

/-- The cell-text computation of `parse_sheet`: given the shared-string
table, the cell type attribute `t` and the optional `<v>` text, produce
the cell string.  A missing/empty `<v>` gives `""`; with `t == "s"` the
value is looked up in the shared-string table, and `except Exception`
(a non-integer index via `ValueError`, an out-of-range one via
`IndexError`) degrades to the raw text. -/
def cellValue (sst : List String) (t : String) (v : Option String) : String :=
  match v with
  | none => ""
  | some raw =>
      if t == "s" then
        match pyToInt raw with
        | some i =>
            match pyListGet sst i with
            | some x => x
            | none => raw
        | none => raw
      else raw

/-- A parsed sheet: the sparse `(row, column) → string` dict of
`parse_sheet`, as an entry list with later entries overwriting earlier
ones. -/
def CellGrid : Type := List ((Nat × Nat) × String)

/-- Python `cells.get((r, c), "")`. -/
def cellGet (cells : CellGrid) (rc : Nat × Nat) : String :=
  ((((List.filter (fun e => e.1 == rc) cells)).getLast?).map (fun e => e.2)).getD ""

/-- `max(r for (r, c) in cells.keys())` (the source computes it only on a
non-empty dict). -/
def gridMaxRow (cells : CellGrid) : Nat := cells.foldl (fun a e => max a e.1.1) 0

/-- `max(c for (r, c) in cells.keys())`. -/
def gridMaxCol (cells : CellGrid) : Nat := cells.foldl (fun a e => max a e.1.2) 0

/-- The inner column loop of the list-sheet branch of `read_xlsx_tables`:
over the (1-based column, header) pairs, skip empty headers, otherwise
record `(header, value)` and accumulate the blank-row flag
(`empty` stays true while every retained value is `""`).  The pairs are
produced left-to-right exactly as the Python loop appends them. -/
def buildCols (get1 : Nat → String) : List (Nat × String) → Row × Bool
  | [] => ([], true)
  | (c, h) :: rest =>
      let acc := buildCols get1 rest
      if h == "" then acc
      else ((h, get1 c) :: acc.1, (get1 c == "") && acc.2)

/-- The list-sheet branch of `read_xlsx_tables`: row 1 (up to the maximum
observed column) supplies stripped header labels, rows 2..max_row become
records, and a row whose retained values are all empty is dropped.  An
empty grid yields no rows. -/
def projectTable (cells : CellGrid) : List Row :=
  if cells.isEmpty then []
  else
    let mr := gridMaxRow cells
    let mc := gridMaxCol cells
    let headers := (List.range' 1 mc).map (fun c => (c, pyStrip (cellGet cells (1, c))))
    ((List.range' 2 (mr - 1)).map
        (fun r => buildCols (fun c => pyStrip (cellGet cells (r, c))) headers)).filterMap
      (fun rb => if rb.2 then none else some rb.1)

/-- Declarative restatement of the list-sheet projection, following the
specification text: keep the header columns with a non-empty label, turn
each row 2..N into the record of its retained values, and keep exactly the
rows in which some retained value is non-empty. -/
def projectTableSpec (cells : CellGrid) : List Row :=
  if cells.isEmpty then []
  else
    let mr := gridMaxRow cells
    let mc := gridMaxCol cells
    let kept := ((List.range' 1 mc).map
        (fun c => (c, pyStrip (cellGet cells (1, c))))).filter (fun p => !(p.2 == ""))
    ((List.range' 2 (mr - 1)).map
        (fun r => kept.map (fun p => (p.2, pyStrip (cellGet cells (r, p.1)))))).filter
      (fun row => row.any (fun q => !(q.2 == "")))

/-!  Named segment-tag predicates used by the structural invariants. -/

/-- The tags of the segments emitted inside the subscriber/dependent loops. -/
def segTags : List String := ["INS", "NM1", "N3", "N4", "DMG", "DTP", "HD"]

/-- A string that is a rendered loop segment: `seg` applied to a known
loop tag and some elements. -/
def isTagSeg (s : String) : Prop :=
  ∃ t es, t ∈ segTags ∧ s = seg (t :: es)

/-- Every element of the list is a rendered loop segment. -/
def isSegList (l : List String) : Prop := ∀ s ∈ l, isTagSeg s

/-!  Concrete inputs used by the witnesses. -/

/-- A small settings/members example: one subscriber, no plan, no deps. -/
def exInp : GenInput :=
  { settings := [("Sender_ID (ISA06)", "ABC"), ("Receiver_ID (ISA08)", "XYZ"),
                 ("Interchange_Control (ISA13)", "7"), ("As_Of_Date", "2024-01-01")]
    plans := []
    members := [[("Subscriber_ID", "1001"), ("Subscriber_SSN", "123456789")]]
    deps := []
    isaDate := "240101", isaTime := "1200", gsDate := "20240101", gsTime := "1200"
    nowDateIso := "2024-01-01" }

/-- The segment list `generate834` produces on `exInp`. -/
def exOut : List String :=
  [seg ["ISA", "00", "          ", "00", "          ", "ZZ", "ABC            ",
        "ZZ", "XYZ            ", "240101", "1200", "^", "00501", "000000007",
        "0", "P", ">"],
   seg ["GS", "BE", "ABC", "XYZ", "20240101", "1200", "1", "X", "005010X220A1"],
   seg ["ST", "834", "1", "005010X220A1"],
   seg ["BGN", "00", "1", "20240101", "1200", "", "", "FULL"],
   seg ["DTP", "007", "D8", "20240101"],
   seg ["N1", "P5", "SPONSOR", "FI", "000000000"],
   seg ["N1", "IN", "PAYER", "FI", "999999"],
   seg ["INS", "Y", "18", "001", "XN", "A", "E", "", "", ""],
   seg ["NM1", "IL", "1", "", "", "", "", "", "34", "123456789"],
   seg ["SE", "8", "1"],
   seg ["GE", "1", "1"],
   seg ["IEA", "1", "000000007"]]

/-- A member row referencing the undefined plan key `PX`. -/
def exBadPlanMember : Row := [("Subscriber_ID", "1001"), ("Plan_Key", "PX")]

/-- An input whose only member references the undefined plan key `PX`. -/
def exBadPlanInp : GenInput := { exInp with members := [exBadPlanMember] }

/-- A member row with a 9-digit SSN, and one with a short SSN. -/
def exSsnMember : Row := [("Subscriber_ID", "1001"), ("Subscriber_SSN", "123456789")]

/-- A member row whose SSN is not 9 numeric digits. -/
def exShortSsnMember : Row := [("Subscriber_ID", "1002"), ("Subscriber_SSN", "1234")]

/-- A dependent row with no coverage dates and no plan key of its own. -/
def exBareDep : Row := [("Subscriber_ID", "1001"), ("Dep_ID", "D1")]

/-- A plans table defining the key `P1`. -/
def exPlans : List Row := [[("Plan_Key", "P1"), ("HD_Insurance_Line_Code", "HLT")]]

/-- The segment list `depSegs` produces for `exBareDep` under subscriber
context `("1001", "20240101", "", "P1")` with plans `exPlans`. -/
def exDepOut : List String :=
  [seg ["INS", "N", "34", "001", "XN", "A", "E"],
   seg ["NM1", "IL", "1", "", "", "", "", "", "ZZ", "1001-D1"],
   seg ["DTP", "356", "D8", "20240101"],
   seg ["HD", "030", "", "HLT", "P1", ""],
   seg ["DTP", "348", "D8", "20240101"]]

/-- A member row with an all-blank subscriber identifier. -/
def exBlankMember : Row := [("Subscriber_ID", "   "), ("Sub_Last", "Doe")]

/-- A dependent row whose subscriber identifier matches no member. -/
def exOrphanDep : Row := [("Subscriber_ID", "9999"), ("Dep_ID", "D9")]

/-!  Helper lemmas. -/

theorem digit_not_ws (c : Char) (h : c.isDigit = true) : c.isWhitespace = false := by
  cases hw : c.isWhitespace
  · rfl
  · exfalso
    simp [Char.isWhitespace] at hw
    rcases hw with ((rfl | rfl) | rfl) | rfl <;> simp [Char.isDigit] at h

theorem dropWhile_ws_of_digits (cs : List Char) (h : cs.all Char.isDigit = true) :
    cs.dropWhile Char.isWhitespace = cs := by
  cases cs with
  | nil => rfl
  | cons c rest =>
      simp only [List.all_cons, Bool.and_eq_true] at h
      simp [List.dropWhile_cons, digit_not_ws c h.1]

theorem stripChars_of_digits (cs : List Char) (h : cs.all Char.isDigit = true) :
    stripChars cs = cs := by
  unfold stripChars
  rw [dropWhile_ws_of_digits cs h,
      dropWhile_ws_of_digits cs.reverse (by simpa using h), List.reverse_reverse]

theorem pyStrip_of_digits (s : String) (h : s.data.all Char.isDigit = true) :
    pyStrip s = s := by
  unfold pyStrip
  rw [stripChars_of_digits s.data h]

theorem pyToInt_of_digits (s : String) (hne : s.data ≠ [])
    (hdig : s.data.all Char.isDigit = true) :
    pyToInt s = some ((digitsToNat s.data : Nat) : Int) := by
  unfold pyToInt
  rw [pyStrip_of_digits s hdig]
  rcases hd : s.data with _ | ⟨c, cs⟩
  · exact absurd hd hne
  · rw [hd] at hdig
    simp only [List.all_cons, Bool.and_eq_true] at hdig
    have hplus : c ≠ '+' := by
      rintro rfl
      exact absurd hdig.1 (by decide)
    have hminus : c ≠ '-' := by
      rintro rfl
      exact absurd hdig.1 (by decide)
    simp [hd, hplus, hminus, hdig.1, hdig.2]

/-!  Claim theorems: date normalizer. -/

/-- C7: the date normalizer is the identity on already-normalized input —
for every string of exactly 8 characters all of which are digits, it
returns the string unchanged (no calendar validity check is involved). -/
theorem yyyymmdd_id_on_8digits (s : String) (hlen : s.length = 8)
    (hdig : s.data.all Char.isDigit = true) : yyyymmdd s = .ok s := by
  have hne : (s == "") = false := by
    rw [beq_eq_false_iff_ne]
    intro he
    subst he
    simp [String.length] at hlen
  simp only [yyyymmdd, pyStrip_of_digits s hdig, hne, hlen, hdig]
  simp

/-- Witness for C7 at the concrete date `20240131`. -/
theorem yyyymmdd_id_on_8digits_witness :
    ("20240131" : String).length = 8 ∧
    ("20240131" : String).data.all Char.isDigit = true ∧
    yyyymmdd "20240131" = .ok "20240131" :=
  ⟨rfl, rfl, yyyymmdd_id_on_8digits "20240131" rfl rfl⟩

/-- C3 (code bug): on the purely numeric date string `45000` the nolibs
generator's `yyyymmdd` raises `ValueError` — its numeric branch can never
succeed because `timedelta` is not imported in that module and the
`NameError` is swallowed by `except Exception: pass` — while the identical
branch in the single-file app (which does import `timedelta`) converts it
as a day-count offset from 1899-12-30, giving 2023-03-15 as the claim
describes. -/
theorem numeric_date_nolibs_bug :
    yyyymmdd "45000" =
      .error "Bad date \x2745000\x27 (expected YYYYMMDD or YYYY-MM-DD)" ∧
    yyyymmdd_onefile "45000" = .ok "20230315" :=
  ⟨rfl, rfl⟩

/-!  Claim theorems: shared-string resolution. -/

/-- C9: for a shared-string-typed cell whose value text is a canonical
(digit-string) index, an index within the shared-string table resolves to
the table text, and an out-of-bounds index degrades to the raw index text
instead of failing the parse. -/
theorem shared_string_index_resolution (sst : List String) (raw : String)
    (hne : raw.data ≠ []) (hdig : raw.data.all Char.isDigit = true) :
    (∀ x, sst[digitsToNat raw.data]? = some x →
        cellValue sst "s" (some raw) = x) ∧
    (sst.length ≤ digitsToNat raw.data → cellValue sst "s" (some raw) = raw) := by
  have hint := pyToInt_of_digits raw hne hdig
  have hget : pyListGet sst ((digitsToNat raw.data : Nat) : Int) =
      sst[digitsToNat raw.data]? := by
    unfold pyListGet
    rw [if_pos (Int.natCast_nonneg _)]
    simp
  constructor
  · intro x hx
    simp only [cellValue, hint, hget, hx]
    simp
  · intro hlen
    have hnone : sst[digitsToNat raw.data]? = none := by
      simp [List.getElem?_eq_none hlen]
    simp only [cellValue, hint, hget, hnone]
    simp

/-- Witness for C9: with a two-element shared-string table, index text
`5` is out of range and stays `5`; index text `1` resolves to the second
entry. -/
theorem shared_string_index_resolution_witness :
    (("5" : String).data ≠ [] ∧ ("5" : String).data.all Char.isDigit = true ∧
      cellValue ["alpha", "beta"] "s" (some "5") = "5") ∧
    cellValue ["alpha", "beta"] "s" (some "1") = "beta" :=
  ⟨⟨by decide, rfl,
    (shared_string_index_resolution ["alpha", "beta"] "5" (by decide) rfl).2 (by decide)⟩,
   (shared_string_index_resolution ["alpha", "beta"] "1" (by decide) rfl).1 "beta" rfl⟩

/-!  Claim theorems: table projection. -/

theorem any_bnot_eq {α : Type} (l : List α) (p : α → Bool) :
    (l.any fun a => !p a) = !(l.all p) := by
  induction l with
  | nil => rfl
  | cons a l ih => simp [ih, Bool.not_and]

theorem any_map_eq {α β : Type} (l : List α) (f : α → β) (p : β → Bool) :
    (l.map f).any p = l.any (fun a => p (f a)) := by
  induction l with
  | nil => rfl
  | cons a l ih => simp [ih]

theorem buildCols_eq (get1 : Nat → String) (cols : List (Nat × String)) :
    buildCols get1 cols =
      ((cols.filter (fun p => !(p.2 == ""))).map (fun p => (p.2, get1 p.1)),
       (cols.filter (fun p => !(p.2 == ""))).all (fun p => get1 p.1 == "")) := by
  induction cols with
  | nil => rfl
  | cons ch rest ih =>
      obtain ⟨c, h⟩ := ch
      cases hh : (h == "") with
      | true => simp [buildCols, List.filter_cons, hh, ih]
      | false => simp [buildCols, List.filter_cons, hh, ih]

theorem project_rows_eq (g : Nat → Nat → String) (headers : List (Nat × String))
    (rs : List Nat) :
    ((rs.map (fun r => buildCols (g r) headers)).filterMap
        (fun rb => if rb.2 then none else some rb.1)) =
      ((rs.map (fun r => (headers.filter (fun p => !(p.2 == ""))).map
          (fun p => (p.2, g r p.1)))).filter
        (fun row => row.any (fun q => !(q.2 == "")))) := by
  induction rs with
  | nil => rfl
  | cons r rest ih =>
      have hany : (((headers.filter (fun p => !(p.2 == ""))).map
          (fun p => (p.2, g r p.1))).any (fun q => !(q.2 == ""))) =
          !((headers.filter (fun p => !(p.2 == ""))).all (fun p => g r p.1 == "")) := by
        rw [any_map_eq]
        exact any_bnot_eq _ _
      simp only [List.map_cons, List.filterMap_cons, List.filter_cons, buildCols_eq]
      rw [hany]
      simp only [buildCols_eq] at ih
      cases hall : ((headers.filter (fun p => !(p.2 == ""))).all (fun p => g r p.1 == "")) with
      | false => exact congrArg (List.cons _) ih
      | true => exact ih

/-- C8: the list-sheet projection of `read_xlsx_tables` equals its
declarative description — row 1 up to the maximum observed column supplies
the headers, columns with an empty header are dropped from every row,
rows 2..N become header-keyed records, and a row all of whose retained
values are empty contributes no record. -/
theorem projectTable_eq_spec (cells : CellGrid) :
    projectTable cells = projectTableSpec cells := by
  unfold projectTable projectTableSpec
  cases he : cells.isEmpty
  · simp only [he, Bool.false_eq_true, if_false]
    exact project_rows_eq (fun r c => pyStrip (cellGet cells (r, c))) _ _
  · simp [he]

/-!  Structural invariants of the generated segment list, leading to the
transaction-trailer count theorem. -/
theorem isSegList_nil : isSegList [] := fun s hs => absurd hs (List.not_mem_nil s)

theorem isSegList_append {l₁ l₂ : List String} (h₁ : isSegList l₁) (h₂ : isSegList l₂) :
    isSegList (l₁ ++ l₂) := by
  intro s hs
  rcases List.mem_append.mp hs with h | h
  · exact h₁ s h
  · exact h₂ s h

theorem isSegList_cons {a : String} {l : List String} (ha : isTagSeg a) (hl : isSegList l) :
    isSegList (a :: l) := by
  intro s hs
  rcases List.mem_cons.mp hs with rfl | h
  · exact ha
  · exact hl s h

theorem isSegList_ite (c : Prop) [Decidable c] {l₁ l₂ : List String}
    (h₁ : isSegList l₁) (h₂ : isSegList l₂) : isSegList (if c then l₁ else l₂) := by
  split
  · exact h₁
  · exact h₂

theorem isTagSeg_ite (c : Prop) [Decidable c] {a b : String}
    (ha : isTagSeg a) (hb : isTagSeg b) : isTagSeg (if c then a else b) := by
  split
  · exact ha
  · exact hb

theorem isTagSeg_mk (t : String) (es : List String) (ht : t ∈ segTags) :
    isTagSeg (seg (t :: es)) := ⟨t, es, ht, rfl⟩

theorem hdSegs_segList (plans : List Row) (k tier cs ce : String) (l : List String)
    (h : hdSegs plans k tier cs ce = .ok l) : isSegList l := by
  simp only [hdSegs] at h
  repeat' (split at h)
  all_goals
    first
      | exact Except.noConfusion h
      | (injection h with h
         subst h
         repeat'
           first
             | exact isSegList_nil
             | exact isTagSeg_mk _ _ (by decide)
             | apply isSegList_cons)

theorem depFront_segList (sub_id : String) (d : Row) (d_dob d_start d_end : String) :
    isSegList (depFront sub_id d d_dob d_start d_end) := by
  unfold depFront
  refine isSegList_append
    (isSegList_append
      (isSegList_append
        (isSegList_cons (isTagSeg_mk _ _ ?_)
          (isSegList_cons
            (isTagSeg_ite _ (isTagSeg_mk _ _ ?_) (isTagSeg_mk _ _ ?_)) isSegList_nil))
        (isSegList_ite _ isSegList_nil
          (isSegList_cons (isTagSeg_mk _ _ ?_) isSegList_nil)))
      (isSegList_ite _ isSegList_nil
        (isSegList_cons (isTagSeg_mk _ _ ?_) isSegList_nil)))
    (isSegList_ite _ isSegList_nil
      (isSegList_cons (isTagSeg_mk _ _ ?_) isSegList_nil))
  all_goals decide

theorem memberFront_segList (sub_id : String) (m : Row) (dob cs ce : String) :
    isSegList (memberFront sub_id m dob cs ce) := by
  unfold memberFront
  refine isSegList_append
    (isSegList_append
      (isSegList_append
        (isSegList_append
          (isSegList_append
            (isSegList_cons (isTagSeg_mk _ _ ?_)
              (isSegList_cons
                (isTagSeg_ite _ (isTagSeg_mk _ _ ?_) (isTagSeg_mk _ _ ?_))
                isSegList_nil))
            (isSegList_ite _ isSegList_nil
              (isSegList_cons (isTagSeg_mk _ _ ?_) isSegList_nil)))
          (isSegList_ite _ isSegList_nil
            (isSegList_cons (isTagSeg_mk _ _ ?_) isSegList_nil)))
        (isSegList_ite _ isSegList_nil
          (isSegList_cons (isTagSeg_mk _ _ ?_) isSegList_nil)))
      (isSegList_ite _ isSegList_nil
        (isSegList_cons (isTagSeg_mk _ _ ?_) isSegList_nil)))
    (isSegList_ite _ isSegList_nil
      (isSegList_cons (isTagSeg_mk _ _ ?_) isSegList_nil))
  all_goals decide

theorem depSegs_segList (plans : List Row) (a b c d0 : String) (d : Row)
    (l : List String) (h : depSegs plans a b c d0 d = .ok l) : isSegList l := by
  simp only [depSegs] at h
  repeat' (split at h)
  all_goals
    first
      | exact Except.noConfusion h
      | (injection h with h
         subst h
         exact isSegList_append (depFront_segList _ _ _ _ _)
           (hdSegs_segList _ _ _ _ _ _ (by assumption)))

theorem depLoop_segList (plans : List Row) (a b c d0 : String) (ds : List Row)
    (l : List String) (h : depLoop plans a b c d0 ds = .ok l) : isSegList l := by
  induction ds generalizing l with
  | nil =>
      simp only [depLoop] at h
      injection h with h
      subst h
      exact isSegList_nil
  | cons d rest ih =>
      simp only [depLoop] at h
      repeat' (split at h)
      all_goals first
        | exact Except.noConfusion h
        | (injection h with h
           subst h
           exact isSegList_append (depSegs_segList plans a b c d0 d _ (by assumption))
             (ih _ (by assumption)))

theorem memberSegs_segList (plans deps : List Row) (m : Row)
    (l : List String) (h : memberSegs plans deps m = .ok l) : isSegList l := by
  simp only [memberSegs] at h
  repeat' (split at h)
  all_goals
    first
      | exact Except.noConfusion h
      | (injection h with h
         subst h
         first
           | exact isSegList_nil
           | exact isSegList_append
               (isSegList_append (memberFront_segList _ _ _ _ _)
                 (hdSegs_segList _ _ _ _ _ _ (by assumption)))
               (depLoop_segList _ _ _ _ _ _ _ (by assumption)))

theorem memberLoop_segList (plans deps : List Row) (ms : List Row)
    (l : List String) (h : memberLoop plans deps ms = .ok l) : isSegList l := by
  induction ms generalizing l with
  | nil =>
      simp only [memberLoop] at h
      injection h with h
      subst h
      exact isSegList_nil
  | cons m rest ih =>
      simp only [memberLoop] at h
      repeat' (split at h)
      all_goals first
        | exact Except.noConfusion h
        | (injection h with h
           subst h
           exact isSegList_append (memberSegs_segList plans deps m _ (by assumption))
             (ih _ (by assumption)))

theorem tagSeg_props (t : String) (ht : t ∈ segTags) (es : List String) :
    strStarts ("ST" ++ ELEM_SEP) (seg (t :: es)) = false ∧
    strStarts ("SE" ++ ELEM_SEP) (seg (t :: es)) = false ∧
    (seg (t :: es) == "SE_PLACEHOLDER") = false := by
  simp only [segTags, List.mem_cons, List.not_mem_nil, or_false] at ht
  rcases ht with rfl | rfl | rfl | rfl | rfl | rfl | rfl <;> cases es <;>
    refine ⟨by simp [strStarts, seg, joinChars, listStarts, ELEM_SEP],
            by simp [strStarts, seg, joinChars, listStarts, ELEM_SEP],
            by simp [seg, joinChars, String.ext_iff]⟩

theorem findIdx_append_none {α : Type} (p : α → Bool) (l₁ l₂ : List α)
    (h : ∀ x ∈ l₁, p x = false) :
    (l₁ ++ l₂).findIdx p = l₁.length + l₂.findIdx p := by
  induction l₁ with
  | nil => simp
  | cons a l ih =>
      rw [List.cons_append, List.findIdx_cons, h a (List.mem_cons_self a l),
        ih (fun x hx => h x (List.mem_cons_of_mem a hx))]
      simp [Nat.add_assoc, Nat.add_comm 1]

theorem set_append_len {α : Type} (l₁ : List α) (a b : α) (l₂ : List α) :
    (l₁ ++ a :: l₂).set l₁.length b = l₁ ++ b :: l₂ := by
  induction l₁ with
  | nil => rfl
  | cons x l ih => simp [List.set, ih]

theorem segList_not_st {l : List String} (h : isSegList l) :
    ∀ s ∈ l, strStarts ("ST" ++ ELEM_SEP) s = false := by
  intro s hs
  obtain ⟨t, es, ht, rfl⟩ := h s hs
  exact (tagSeg_props t ht es).1

theorem segList_not_se {l : List String} (h : isSegList l) :
    ∀ s ∈ l, strStarts ("SE" ++ ELEM_SEP) s = false := by
  intro s hs
  obtain ⟨t, es, ht, rfl⟩ := h s hs
  exact (tagSeg_props t ht es).2.1

theorem segList_not_ph {l : List String} (h : isSegList l) :
    ∀ s ∈ l, (s == "SE_PLACEHOLDER") = false := by
  intro s hs
  obtain ⟨t, es, ht, rfl⟩ := h s hs
  exact (tagSeg_props t ht es).2.2

theorem env_length (st : Row) (w x y z a : String) : (envSegs st w x y z a).length = 7 := rfl

theorem env_findIdx_st (st : Row) (w x y z a : String) (rest : List String) :
    List.findIdx (fun s => strStarts ("ST" ++ ELEM_SEP) s)
      (envSegs st w x y z a ++ rest) = 2 := by
  simp [envSegs, List.findIdx_cons, strStarts, seg, joinChars, listStarts, ELEM_SEP]

theorem env_not_se (st : Row) (w x y z a : String) :
    ∀ s ∈ envSegs st w x y z a, strStarts ("SE" ++ ELEM_SEP) s = false := by
  intro s hs
  simp only [envSegs, List.mem_cons, List.not_mem_nil, or_false] at hs
  rcases hs with rfl | rfl | rfl | rfl | rfl | rfl | rfl <;>
    simp [strStarts, seg, joinChars, listStarts, ELEM_SEP]

theorem env_not_ph (st : Row) (w x y z a : String) :
    ∀ s ∈ envSegs st w x y z a, (s == "SE_PLACEHOLDER") = false := by
  intro s hs
  simp only [envSegs, List.mem_cons, List.not_mem_nil, or_false] at hs
  rcases hs with rfl | rfl | rfl | rfl | rfl | rfl | rfl <;>
    simp [seg, joinChars, String.ext_iff]

theorem env_get2 (st : Row) (w x y z a : String) :
    (envSegs st w x y z a)[2]? = some (seg ["ST", "834", tcnOf st, "005010X220A1"]) := rfl

theorem seSeg_starts (cnt tcn : String) :
    strStarts ("SE" ++ ELEM_SEP) (seg ["SE", cnt, tcn]) = true := by
  simp [strStarts, seg, joinChars, listStarts, ELEM_SEP]

theorem getElem?_append_len {α : Type} (l₁ : List α) (a : α) (l₂ : List α) :
    (l₁ ++ a :: l₂)[l₁.length]? = some a := by
  rw [List.getElem?_append_right (Nat.le_refl _)]
  simp

/-- C1: in every generated segment sequence, the first data element of the
transaction-set-trailer (`SE`) segment is exactly the count
`(index_of_trailer - index_of_header) + 1`, where the header index is that
of the first segment starting with `ST*` and the trailer index that of the
first segment starting with `SE*` — i.e. the count equals the number of
segments from the `ST` segment through the `SE` segment inclusive, for any
number of subscribers and dependents. -/
theorem se_trailer_count_invariant (inp : GenInput) (out : List String)
    (h : generate834 inp = .ok out) :
    ∃ st se : Nat,
      st = List.findIdx (fun s => strStarts ("ST" ++ ELEM_SEP) s) out ∧
      se = List.findIdx (fun s => strStarts ("SE" ++ ELEM_SEP) s) out ∧
      st ≤ se ∧ se < out.length ∧
      out[st]? = some (seg ["ST", "834", tcnOf inp.settings, "005010X220A1"]) ∧
      out[se]? = some (seg ["SE", toString (se - st + 1), tcnOf inp.settings]) := by
  simp only [generate834] at h
  split at h
  · exact Except.noConfusion h
  rename_i x1 as_of heqa
  split at h
  · exact Except.noConfusion h
  rename_i x2 body heqb
  injection h with h
  subst h
  have hbody := memberLoop_segList _ _ _ _ heqb
  have hnoPh : ∀ x ∈ envSegs inp.settings inp.isaDate inp.isaTime inp.gsDate
      inp.gsTime as_of ++ body,
      (fun s => s == "SE_PLACEHOLDER") x = false := by
    intro x hx
    rcases List.mem_append.mp hx with hx | hx
    · exact env_not_ph _ _ _ _ _ _ x hx
    · exact segList_not_ph hbody x hx
  have hnoSe : ∀ x ∈ envSegs inp.settings inp.isaDate inp.isaTime inp.gsDate
      inp.gsTime as_of ++ body,
      (fun s => strStarts ("SE" ++ ELEM_SEP) s) x = false := by
    intro x hx
    rcases List.mem_append.mp hx with hx | hx
    · exact env_not_se _ _ _ _ _ _ x hx
    · exact segList_not_se hbody x hx
  have hseE : List.findIdx (fun s => s == "SE_PLACEHOLDER")
      ((envSegs inp.settings inp.isaDate inp.isaTime inp.gsDate inp.gsTime as_of
          ++ body) ++
        ["SE_PLACEHOLDER", seg ["GE", "1", gcnOf inp.settings],
         seg ["IEA", "1", icnOf inp.settings]]) =
      (envSegs inp.settings inp.isaDate inp.isaTime inp.gsDate inp.gsTime as_of
        ++ body).length := by
    rw [findIdx_append_none _ _ _ hnoPh]
    simp [List.findIdx_cons]
  have hstE : List.findIdx (fun s => strStarts ("ST" ++ ELEM_SEP) s)
      ((envSegs inp.settings inp.isaDate inp.isaTime inp.gsDate inp.gsTime as_of
          ++ body) ++
        ["SE_PLACEHOLDER", seg ["GE", "1", gcnOf inp.settings],
         seg ["IEA", "1", icnOf inp.settings]]) = 2 := by
    rw [List.append_assoc]
    exact env_findIdx_st _ _ _ _ _ _ _
  rw [hseE, hstE, set_append_len]
  refine ⟨2, (envSegs inp.settings inp.isaDate inp.isaTime inp.gsDate inp.gsTime
    as_of ++ body).length, ?_, ?_, ?_, ?_, ?_, ?_⟩
  · rw [List.append_assoc]
    exact (env_findIdx_st _ _ _ _ _ _ _).symm
  · rw [findIdx_append_none _ _ _ hnoSe, List.findIdx_cons, seSeg_starts]
    simp
  · rw [List.length_append, env_length]
    omega
  · simp [List.length_append]
  · rw [List.append_assoc, List.getElem?_append_left (by rw [env_length]; omega)]
    exact env_get2 _ _ _ _ _ _
  · exact getElem?_append_len _ _ _


/-- Witness for C1 on the concrete run `exInp`. -/
theorem se_trailer_count_invariant_witness :
    generate834 exInp = .ok exOut ∧
    (∃ st se : Nat,
      st = List.findIdx (fun s => strStarts ("ST" ++ ELEM_SEP) s) exOut ∧
      se = List.findIdx (fun s => strStarts ("SE" ++ ELEM_SEP) s) exOut ∧
      st ≤ se ∧ se < exOut.length ∧
      exOut[st]? = some (seg ["ST", "834", tcnOf exInp.settings, "005010X220A1"]) ∧
      exOut[se]? = some (seg ["SE", toString (se - st + 1), tcnOf exInp.settings])) :=
  ⟨rfl, se_trailer_count_invariant exInp exOut rfl⟩

/-!  Claim theorems: member/dependent row handling. -/

theorem memberLoop_skip (plans deps : List Row) (m : Row) (pre post : List Row)
    (h : memberSegs plans deps m = .ok []) :
    memberLoop plans deps (pre ++ m :: post) = memberLoop plans deps (pre ++ post) := by
  induction pre with
  | nil =>
      simp only [List.nil_append, memberLoop, h]
      cases hp : memberLoop plans deps post <;> simp
  | cons x rest ih =>
      simp only [List.cons_append, memberLoop, List.append_eq, ih]

/-- C6: a members row whose `Subscriber_ID` strips to the empty string
contributes zero segments: the row is skipped outright (its `memberSegs`
is `ok []`), and the generated output is identical to the output for the
same input without that row — in particular no error is raised for it. -/
theorem blank_subscriber_id_skipped (inp : GenInput) (m : Row) (pre post : List Row)
    (h : rget m "Subscriber_ID" = "") :
    memberSegs inp.plans inp.deps m = .ok [] ∧
    generate834 { inp with members := pre ++ m :: post } =
      generate834 { inp with members := pre ++ post } := by
  have h1 : memberSegs inp.plans inp.deps m = .ok [] := by
    simp [memberSegs, h]
  refine ⟨h1, ?_⟩
  simp only [generate834]
  rw [memberLoop_skip inp.plans inp.deps m pre post h1]

/-- Witness for C6 on a concrete all-blank `Subscriber_ID` row. -/
theorem blank_subscriber_id_skipped_witness :
    rget exBlankMember "Subscriber_ID" = "" ∧
    memberSegs exInp.plans exInp.deps exBlankMember = .ok [] ∧
    generate834 { exInp with members := [] ++ exBlankMember :: exInp.members } =
      generate834 { exInp with members := [] ++ exInp.members } :=
  ⟨by decide,
   (blank_subscriber_id_skipped exInp exBlankMember [] exInp.members (by decide)).1,
   (blank_subscriber_id_skipped exInp exBlankMember [] exInp.members (by decide)).2⟩

theorem depsFor_skip (pre post : List Row) (d : Row) (sid : String)
    (h : rget d "Subscriber_ID" ≠ sid) :
    depsFor (pre ++ d :: post) sid = depsFor (pre ++ post) sid := by
  simp [depsFor, List.filter_append, List.filter_cons, h]

theorem memberSegs_deps_congr (plans : List Row) (deps1 deps2 : List Row) (m : Row)
    (h : depsFor deps1 (rget m "Subscriber_ID") = depsFor deps2 (rget m "Subscriber_ID")) :
    memberSegs plans deps1 m = memberSegs plans deps2 m := by
  simp only [memberSegs, h]

theorem memberLoop_congr (plans deps1 deps2 : List Row) (ms : List Row)
    (h : ∀ m ∈ ms, memberSegs plans deps1 m = memberSegs plans deps2 m) :
    memberLoop plans deps1 ms = memberLoop plans deps2 ms := by
  induction ms with
  | nil => rfl
  | cons m rest ih =>
      simp only [memberLoop, h m (List.mem_cons_self m rest),
        ih (fun x hx => h x (List.mem_cons_of_mem m hx))]

/-- C10: a dependents row whose `Subscriber_ID` strips to the empty
string, or matches no processed member row, is silently omitted: the
generated output is identical to the output for the same input without
that row. -/
theorem orphan_dependent_omitted (inp : GenInput) (d : Row) (pre post : List Row)
    (h : rget d "Subscriber_ID" = "" ∨
      ∀ m ∈ inp.members, rget m "Subscriber_ID" ≠ "" →
        rget d "Subscriber_ID" ≠ rget m "Subscriber_ID") :
    generate834 { inp with deps := pre ++ d :: post } =
      generate834 { inp with deps := pre ++ post } := by
  simp only [generate834]
  rw [memberLoop_congr inp.plans (pre ++ d :: post) (pre ++ post) inp.members ?_]
  intro m hm
  by_cases hsub : rget m "Subscriber_ID" = ""
  · simp [memberSegs, hsub]
  · apply memberSegs_deps_congr
    apply depsFor_skip
    rcases h with h | h
    · rw [h]
      exact fun he => hsub he.symm
    · exact h m hm hsub

/-- Witness for C10 on a concrete unmatched dependent row. -/
theorem orphan_dependent_omitted_witness :
    (∀ m ∈ exInp.members, rget m "Subscriber_ID" ≠ "" →
      rget exOrphanDep "Subscriber_ID" ≠ rget m "Subscriber_ID") ∧
    generate834 { exInp with deps := [] ++ exOrphanDep :: exInp.deps } =
      generate834 { exInp with deps := [] ++ exInp.deps } :=
  ⟨by decide,
   orphan_dependent_omitted exInp exOrphanDep [] exInp.deps (Or.inr (by decide))⟩

theorem memberFront_length (s : String) (m : Row) (a b c : String) :
    2 ≤ (memberFront s m a b c).length := by
  unfold memberFront
  simp [List.length_append]

theorem memberFront_get1 (s : String) (m : Row) (a b c : String) :
    (memberFront s m a b c)[1]? =
      some (if pyIsDigit (rget m "Subscriber_SSN") &&
              (rget m "Subscriber_SSN").length == 9 then
        seg ["NM1", "IL", "1", rget m "Sub_Last", rget m "Sub_First",
             rget m "Sub_Middle", "", "", "34", rget m "Subscriber_SSN"]
      else
        seg ["NM1", "IL", "1", rget m "Sub_Last", rget m "Sub_First",
             rget m "Sub_Middle", "", "", "ZZ", s]) := by
  unfold memberFront
  rw [List.getElem?_append_left (by simp [List.length_append]),
      List.getElem?_append_left (by simp [List.length_append]),
      List.getElem?_append_left (by simp [List.length_append]),
      List.getElem?_append_left (by simp [List.length_append]),
      List.getElem?_append_left (by simp [List.length_append])]
  rfl

theorem front_append_get1 (s : String) (m : Row) (a b c : String)
    (l2 l3 : List String) :
    (memberFront s m a b c ++ l2 ++ l3)[1]? = (memberFront s m a b c)[1]? := by
  rw [List.getElem?_append_left, List.getElem?_append_left]
  · exact lt_of_lt_of_le (by omega) (memberFront_length s m a b c)
  · rw [List.length_append]
    have := memberFront_length s m a b c
    omega

/-- C4: the subscriber identity segment (the second segment of the
subscriber loop body) uses qualifier `34` with the SSN when the SSN field
is exactly 9 numeric digits, and qualifier `ZZ` with the subscriber's own
identifier for any other SSN value. -/
theorem subscriber_nm1_ssn_qualifier (plans deps : List Row) (m : Row)
    (l : List String) (h : memberSegs plans deps m = .ok l)
    (hsub : rget m "Subscriber_ID" ≠ "") :
    (pyIsDigit (rget m "Subscriber_SSN") = true ∧
        (rget m "Subscriber_SSN").length = 9 →
      l[1]? = some (seg ["NM1", "IL", "1", rget m "Sub_Last", rget m "Sub_First",
        rget m "Sub_Middle", "", "", "34", rget m "Subscriber_SSN"])) ∧
    (¬(pyIsDigit (rget m "Subscriber_SSN") = true ∧
        (rget m "Subscriber_SSN").length = 9) →
      l[1]? = some (seg ["NM1", "IL", "1", rget m "Sub_Last", rget m "Sub_First",
        rget m "Sub_Middle", "", "", "ZZ", rget m "Subscriber_ID"])) := by
  simp only [memberSegs] at h
  rw [if_neg (by simpa using hsub)] at h
  repeat' (split at h)
  all_goals first
    | exact Except.noConfusion h
    | (injection h with h
       subst h
       constructor
       · intro hx
         rw [front_append_get1, memberFront_get1, if_pos (by simp [hx.1, hx.2])]
       · intro hx
         rw [front_append_get1, memberFront_get1, if_neg ?_]
         simp only [Bool.and_eq_true, beq_iff_eq]
         intro hc
         exact hx ⟨hc.1, hc.2⟩)

/-- Witness for C4 on a 9-digit and a 4-digit SSN. -/
theorem subscriber_nm1_ssn_qualifier_witness :
    (memberSegs [] [] exSsnMember =
        .ok [seg ["INS", "Y", "18", "001", "XN", "A", "E", "", "", ""],
             seg ["NM1", "IL", "1", "", "", "", "", "", "34", "123456789"]] ∧
      [seg ["INS", "Y", "18", "001", "XN", "A", "E", "", "", ""],
       seg ["NM1", "IL", "1", "", "", "", "", "", "34", "123456789"]][1]? =
        some (seg ["NM1", "IL", "1", rget exSsnMember "Sub_Last",
          rget exSsnMember "Sub_First", rget exSsnMember "Sub_Middle", "", "",
          "34", rget exSsnMember "Subscriber_SSN"])) ∧
    (memberSegs [] [] exShortSsnMember =
        .ok [seg ["INS", "Y", "18", "001", "XN", "A", "E", "", "", ""],
             seg ["NM1", "IL", "1", "", "", "", "", "", "ZZ", "1002"]] ∧
      [seg ["INS", "Y", "18", "001", "XN", "A", "E", "", "", ""],
       seg ["NM1", "IL", "1", "", "", "", "", "", "ZZ", "1002"]][1]? =
        some (seg ["NM1", "IL", "1", rget exShortSsnMember "Sub_Last",
          rget exShortSsnMember "Sub_First", rget exShortSsnMember "Sub_Middle",
          "", "", "ZZ", rget exShortSsnMember "Subscriber_ID"])) :=
  ⟨⟨rfl,
    (subscriber_nm1_ssn_qualifier [] [] exSsnMember _ rfl (by decide)).1
      (by constructor <;> decide)⟩,
   ⟨rfl,
    (subscriber_nm1_ssn_qualifier [] [] exShortSsnMember _ rfl (by decide)).2
      (by decide)⟩⟩

/-!  Claim theorems: dependent fallback. -/

theorem pyOr_empty (y : String) : pyOr "" y = y := rfl

theorem hdSegs_cases (plans : List Row) (k tier cs ce : String) (l : List String)
    (h : hdSegs plans k tier cs ce = .ok l) :
    (k = "" ∧ l = []) ∨
    (k ≠ "" ∧ ∃ pr, planLookup plans k = some pr ∧
      l = [seg ["HD", "030", "", hdLine pr, hdDesc pr k, tier]]
        ++ (if cs == "" then [] else [seg ["DTP", "348", "D8", cs]])
        ++ (if ce == "" then [] else [seg ["DTP", "349", "D8", ce]])) := by
  simp only [hdSegs] at h
  split at h
  · injection h with h
    subst h
    exact Or.inl ⟨by simpa using (by assumption : (k == "") = true), rfl⟩
  · split at h
    · exact Except.noConfusion h
    · injection h with h
      subst h
      rename_i hneg x pr hpr
      exact Or.inr ⟨by simpa using hneg, pr, hpr, rfl⟩

theorem depFront_filter_356 (sub_id : String) (d : Row) (d_dob d_start d_end : String) :
    (depFront sub_id d d_dob d_start d_end).filter
      (fun s => strStarts ("DTP" ++ ELEM_SEP ++ "356") s) =
      if d_start == "" then [] else [seg ["DTP", "356", "D8", d_start]] := by
  unfold depFront
  split_ifs <;>
    simp_all [List.filter_append, List.filter_cons, strStarts, seg, joinChars,
      listStarts, ELEM_SEP]

theorem depFront_filter_357 (sub_id : String) (d : Row) (d_dob d_start d_end : String) :
    (depFront sub_id d d_dob d_start d_end).filter
      (fun s => strStarts ("DTP" ++ ELEM_SEP ++ "357") s) =
      if d_end == "" then [] else [seg ["DTP", "357", "D8", d_end]] := by
  unfold depFront
  split_ifs <;>
    simp_all [List.filter_append, List.filter_cons, strStarts, seg, joinChars,
      listStarts, ELEM_SEP]

theorem depFront_filter_hd (sub_id : String) (d : Row) (d_dob d_start d_end : String) :
    (depFront sub_id d d_dob d_start d_end).filter
      (fun s => strStarts ("HD" ++ ELEM_SEP) s) = [] := by
  unfold depFront
  split_ifs <;>
    simp_all [List.filter_append, List.filter_cons, strStarts, seg, joinChars,
      listStarts, ELEM_SEP]

theorem hdList_filter_356 (pr : Row) (k tier cs ce : String) :
    (([seg ["HD", "030", "", hdLine pr, hdDesc pr k, tier]]
      ++ (if cs == "" then [] else [seg ["DTP", "348", "D8", cs]])
      ++ (if ce == "" then [] else [seg ["DTP", "349", "D8", ce]])).filter
      (fun s => strStarts ("DTP" ++ ELEM_SEP ++ "356") s)) = [] := by
  split_ifs <;>
    simp_all [List.filter_append, List.filter_cons, strStarts, seg, joinChars,
      listStarts, ELEM_SEP]

theorem hdList_filter_357 (pr : Row) (k tier cs ce : String) :
    (([seg ["HD", "030", "", hdLine pr, hdDesc pr k, tier]]
      ++ (if cs == "" then [] else [seg ["DTP", "348", "D8", cs]])
      ++ (if ce == "" then [] else [seg ["DTP", "349", "D8", ce]])).filter
      (fun s => strStarts ("DTP" ++ ELEM_SEP ++ "357") s)) = [] := by
  split_ifs <;>
    simp_all [List.filter_append, List.filter_cons, strStarts, seg, joinChars,
      listStarts, ELEM_SEP]

theorem hdList_filter_hd (pr : Row) (k tier cs ce : String) :
    (([seg ["HD", "030", "", hdLine pr, hdDesc pr k, tier]]
      ++ (if cs == "" then [] else [seg ["DTP", "348", "D8", cs]])
      ++ (if ce == "" then [] else [seg ["DTP", "349", "D8", ce]])).filter
      (fun s => strStarts ("HD" ++ ELEM_SEP) s)) =
      [seg ["HD", "030", "", hdLine pr, hdDesc pr k, tier]] := by
  split_ifs <;>
    simp_all [List.filter_append, List.filter_cons, strStarts, seg, joinChars,
      listStarts, ELEM_SEP]

/-- C5: a dependent whose own coverage-start, coverage-end, or plan key
field is empty falls back to the owning subscriber's corresponding value:
the dependent's `DTP*356`/`DTP*357` segment carries the subscriber's
normalized date (and is absent when that is empty too), and with an empty
own plan key the `HD` segment is resolved from the subscriber's plan key
(and is absent when that is also empty). -/
theorem dependent_fallback_segments (plans : List Row)
    (sub_id cov_start cov_end plan_key : String) (d : Row) (l : List String)
    (h : depSegs plans sub_id cov_start cov_end plan_key d = .ok l) :
    (rget d "Coverage_Start" = "" →
      l.filter (fun s => strStarts ("DTP" ++ ELEM_SEP ++ "356") s) =
        if cov_start = "" then [] else [seg ["DTP", "356", "D8", cov_start]]) ∧
    (rget d "Coverage_End" = "" →
      l.filter (fun s => strStarts ("DTP" ++ ELEM_SEP ++ "357") s) =
        if cov_end = "" then [] else [seg ["DTP", "357", "D8", cov_end]]) ∧
    (rget d "Plan_Key" = "" →
      (plan_key = "" →
        l.filter (fun s => strStarts ("HD" ++ ELEM_SEP) s) = []) ∧
      (plan_key ≠ "" → ∃ pr, planLookup plans plan_key = some pr ∧
        l.filter (fun s => strStarts ("HD" ++ ELEM_SEP) s) =
          [seg ["HD", "030", "", hdLine pr, hdDesc pr plan_key, ""]])) := by
  simp only [depSegs] at h
  repeat' (split at h)
  all_goals first
    | exact Except.noConfusion h
    | skip
  injection h with h
  subst h
  rename_i x1 d_dob heq1 x2 ds0 heq2 x3 de0 heq3 x4 hd heqHd
  refine ⟨?_, ?_, ?_⟩
  · intro hds
    have hds0 : ds0 = "" := (Except.ok.inj (hds ▸ heq2)).symm
    subst hds0
    rw [List.filter_append, depFront_filter_356, pyOr_empty]
    rcases hdSegs_cases _ _ _ _ _ _ heqHd with ⟨hk, rfl⟩ | ⟨hk, pr, hpr, rfl⟩
    · by_cases hc : cov_start = "" <;> simp [hc]
    · rw [hdList_filter_356]
      by_cases hc : cov_start = "" <;> simp [hc]
  · intro hde
    have hde0 : de0 = "" := (Except.ok.inj (hde ▸ heq3)).symm
    subst hde0
    rw [List.filter_append, depFront_filter_357, pyOr_empty]
    rcases hdSegs_cases _ _ _ _ _ _ heqHd with ⟨hk, rfl⟩ | ⟨hk, pr, hpr, rfl⟩
    · by_cases hc : cov_end = "" <;> simp [hc]
    · rw [hdList_filter_357]
      by_cases hc : cov_end = "" <;> simp [hc]
  · intro hpk
    rw [hpk, pyOr_empty] at heqHd
    rcases hdSegs_cases _ _ _ _ _ _ heqHd with ⟨hk, rfl⟩ | ⟨hk, pr, hpr, rfl⟩
    · refine ⟨fun _ => ?_, fun hne => absurd hk hne⟩
      rw [List.filter_append, depFront_filter_hd]
      simp
    · refine ⟨fun he => absurd he hk, fun _ => ⟨pr, hpr, ?_⟩⟩
      rw [List.filter_append, depFront_filter_hd, hdList_filter_hd]
      simp

/-- Witness for C5 on a dependent with no dates and no plan key of its
own, under a subscriber with a start date and plan `P1`. -/
theorem dependent_fallback_segments_witness :
    depSegs exPlans "1001" "20240101" "" "P1" exBareDep = .ok exDepOut ∧
    exDepOut.filter (fun s => strStarts ("DTP" ++ ELEM_SEP ++ "356") s) =
      [seg ["DTP", "356", "D8", "20240101"]] ∧
    exDepOut.filter (fun s => strStarts ("DTP" ++ ELEM_SEP ++ "357") s) = [] ∧
    (∃ pr, planLookup exPlans "P1" = some pr ∧
      exDepOut.filter (fun s => strStarts ("HD" ++ ELEM_SEP) s) =
        [seg ["HD", "030", "", hdLine pr, hdDesc pr "P1", ""]]) := by
  have h := dependent_fallback_segments exPlans "1001" "20240101" "" "P1"
    exBareDep exDepOut rfl
  refine ⟨rfl, ?_, ?_, (h.2.2 (by decide)).2 (by decide)⟩
  · have h1 := h.1 (by decide)
    rw [if_neg (by decide)] at h1
    exact h1
  · have h2 := h.2.1 (by decide)
    rw [if_pos rfl] at h2
    exact h2

/-!  Claim theorems: unresolved plan references. -/

theorem hdSegs_err (plans : List Row) (k tier cs ce : String)
    (hk : k ≠ "") (hlk : planLookup plans k = none) :
    hdSegs plans k tier cs ce = .error (planErr k) := by
  simp [hdSegs, hk, hlk]

theorem memberSegs_plan_fail (plans deps : List Row) (m : Row)
    (hsub : rget m "Subscriber_ID" ≠ "") (hk : rget m "Plan_Key" ≠ "")
    (hlk : planLookup plans (rget m "Plan_Key") = none) :
    (∀ l, memberSegs plans deps m ≠ .ok l) ∧
    ((∃ v, yyyymmdd (rget m "Sub_DOB") = .ok v) →
     (∃ v, yyyymmdd (rget m "Coverage_Start") = .ok v) →
     (∃ v, yyyymmdd (rget m "Coverage_End") = .ok v) →
      memberSegs plans deps m = .error (planErr (rget m "Plan_Key"))) := by
  have herr : ∀ cs ce, hdSegs plans (rget m "Plan_Key")
      (rget m "Coverage_Tier_Code") cs ce = .error (planErr (rget m "Plan_Key")) :=
    fun cs ce => hdSegs_err plans _ _ cs ce hk hlk
  constructor
  · intro l hok
    simp only [memberSegs] at hok
    rw [if_neg (by simpa using hsub)] at hok
    repeat' (split at hok)
    all_goals first
      | exact Except.noConfusion hok
      | simp_all [herr]
  · rintro ⟨v1, h1⟩ ⟨v2, h2⟩ ⟨v3, h3⟩
    simp only [memberSegs]
    rw [if_neg (by simpa using hsub), h1, h2, h3]
    simp [herr]

theorem memberLoop_fail (plans deps : List Row) (ms : List Row) (m : Row)
    (hm : m ∈ ms) (hf : ∀ l, memberSegs plans deps m ≠ .ok l) :
    ∀ L, memberLoop plans deps ms ≠ .ok L := by
  induction ms with
  | nil => cases hm
  | cons x rest ih =>
      intro L hok
      simp only [memberLoop] at hok
      rcases List.mem_cons.mp hm with rfl | hm2
      · split at hok
        · exact Except.noConfusion hok
        · exact hf _ (by assumption)
      · split at hok
        · exact Except.noConfusion hok
        · split at hok
          · exact Except.noConfusion hok
          · exact ih hm2 _ (by assumption)

theorem generate834_fail (inp : GenInput)
    (hf : ∀ L, memberLoop inp.plans inp.deps inp.members ≠ .ok L) :
    ∀ out, generate834 inp ≠ .ok out := by
  intro out hok
  simp only [generate834] at hok
  split at hok
  · exact Except.noConfusion hok
  · split at hok
    · exact Except.noConfusion hok
    · exact hf _ (by assumption)

theorem depSegs_plan_fail (plans : List Row) (d : Row)
    (hk : rget d "Plan_Key" ≠ "")
    (hlk : planLookup plans (rget d "Plan_Key") = none) :
    (∀ sub_id cs ce pk l, depSegs plans sub_id cs ce pk d ≠ .ok l) ∧
    (∀ sub_id cs ce pk,
      (∃ v, yyyymmdd (rget d "Dep_DOB") = .ok v) →
      (∃ v, yyyymmdd (rget d "Coverage_Start") = .ok v) →
      (∃ v, yyyymmdd (rget d "Coverage_End") = .ok v) →
      depSegs plans sub_id cs ce pk d = .error (planErr (rget d "Plan_Key"))) := by
  have hor : ∀ pk, pyOr (rget d "Plan_Key") pk = rget d "Plan_Key" := by
    intro pk
    simp [pyOr, hk]
  have herr : ∀ cs ce, hdSegs plans (rget d "Plan_Key") "" cs ce =
      .error (planErr (rget d "Plan_Key")) :=
    fun cs ce => hdSegs_err plans _ _ cs ce hk hlk
  constructor
  · intro sub_id cs ce pk l hok
    simp only [depSegs] at hok
    repeat' (split at hok)
    all_goals first
      | exact Except.noConfusion hok
      | simp_all [hor, herr]
  · rintro sub_id cs ce pk ⟨v1, h1⟩ ⟨v2, h2⟩ ⟨v3, h3⟩
    simp only [depSegs]
    rw [h1, h2, h3]
    simp [hor, herr]

theorem depLoop_fail (plans : List Row) (a b c pk : String) (ds : List Row)
    (d : Row) (hm : d ∈ ds) (hf : ∀ l, depSegs plans a b c pk d ≠ .ok l) :
    ∀ L, depLoop plans a b c pk ds ≠ .ok L := by
  induction ds with
  | nil => cases hm
  | cons x rest ih =>
      intro L hok
      simp only [depLoop] at hok
      rcases List.mem_cons.mp hm with rfl | hm2
      · split at hok
        · exact Except.noConfusion hok
        · exact hf _ (by assumption)
      · split at hok
        · exact Except.noConfusion hok
        · split at hok
          · exact Except.noConfusion hok
          · exact ih hm2 _ (by assumption)

theorem memberSegs_dep_fail (plans deps : List Row) (m : Row) (d : Row)
    (hd : d ∈ deps) (hsid : rget d "Subscriber_ID" = rget m "Subscriber_ID")
    (hsub : rget m "Subscriber_ID" ≠ "")
    (hf : ∀ sub_id cs ce pk l, depSegs plans sub_id cs ce pk d ≠ .ok l) :
    ∀ l, memberSegs plans deps m ≠ .ok l := by
  intro l hok
  simp only [memberSegs] at hok
  rw [if_neg (by simpa using hsub)] at hok
  have hdf : d ∈ depsFor deps (rget m "Subscriber_ID") :=
    List.mem_filter.mpr ⟨hd, by simp [hsid]⟩
  repeat' (split at hok)
  all_goals first
    | exact Except.noConfusion hok
    | exact depLoop_fail plans _ _ _ _ _ d hdf (hf _ _ _ _) _ (by assumption)

/-- C2: a processed member row, or a dependent joined to one, carrying a
non-empty plan key that is absent from the plans table makes the whole
transform fail — `generate834` never returns a segment list for such an
input — and the failing record's own processing raises exactly the
`KeyError` message naming the missing key and the Plans sheet (provided
its date fields normalize, which is what makes the plan lookup the first
failure of that record). -/
theorem unresolved_plan_key_fatal (inp : GenInput) (m : Row)
    (hm : m ∈ inp.members) (hsub : rget m "Subscriber_ID" ≠ "") :
    (rget m "Plan_Key" ≠ "" → planLookup inp.plans (rget m "Plan_Key") = none →
      (∀ out, generate834 inp ≠ .ok out) ∧
      (∀ l, memberSegs inp.plans inp.deps m ≠ .ok l) ∧
      ((∃ v, yyyymmdd (rget m "Sub_DOB") = .ok v) →
       (∃ v, yyyymmdd (rget m "Coverage_Start") = .ok v) →
       (∃ v, yyyymmdd (rget m "Coverage_End") = .ok v) →
        memberSegs inp.plans inp.deps m =
          .error (planErr (rget m "Plan_Key")))) ∧
    (∀ d ∈ inp.deps, rget d "Subscriber_ID" = rget m "Subscriber_ID" →
      rget d "Plan_Key" ≠ "" → planLookup inp.plans (rget d "Plan_Key") = none →
      (∀ out, generate834 inp ≠ .ok out) ∧
      (∀ sub_id cs ce pk l, depSegs inp.plans sub_id cs ce pk d ≠ .ok l) ∧
      (∀ sub_id cs ce pk,
        (∃ v, yyyymmdd (rget d "Dep_DOB") = .ok v) →
        (∃ v, yyyymmdd (rget d "Coverage_Start") = .ok v) →
        (∃ v, yyyymmdd (rget d "Coverage_End") = .ok v) →
        depSegs inp.plans sub_id cs ce pk d =
          .error (planErr (rget d "Plan_Key")))) := by
  constructor
  · intro hk hlk
    have hfail := memberSegs_plan_fail inp.plans inp.deps m hsub hk hlk
    exact ⟨generate834_fail inp (memberLoop_fail _ _ _ m hm hfail.1),
      hfail.1, hfail.2⟩
  · intro d hd hsid hk hlk
    have hfail := depSegs_plan_fail inp.plans d hk hlk
    refine ⟨?_, hfail.1, hfail.2⟩
    exact generate834_fail inp (memberLoop_fail _ _ _ m hm
      (memberSegs_dep_fail inp.plans inp.deps m d hd hsid hsub hfail.1))

/-- Witness for C2 on a member referencing the undefined key `PX` with an
empty plans table. -/
theorem unresolved_plan_key_fatal_witness :
    (exBadPlanMember ∈ exBadPlanInp.members ∧
      rget exBadPlanMember "Subscriber_ID" ≠ "" ∧
      rget exBadPlanMember "Plan_Key" ≠ "" ∧
      planLookup exBadPlanInp.plans (rget exBadPlanMember "Plan_Key") = none) ∧
    generate834 exBadPlanInp ≠ .ok exOut ∧
    memberSegs exBadPlanInp.plans exBadPlanInp.deps exBadPlanMember =
      .error (planErr "PX") := by
  have h := (unresolved_plan_key_fatal exBadPlanInp exBadPlanMember
    (List.mem_cons_self _ _) (by decide)).1 (by decide) rfl
  refine ⟨⟨List.mem_cons_self _ _, by decide, by decide, rfl⟩, h.1 exOut, ?_⟩
  have h2 := h.2.2 ⟨"", rfl⟩ ⟨"", rfl⟩ ⟨"", rfl⟩
  simpa using h2
